import Mathlib

/-!
Shallow embedding of the `vulkan-testing` repository (Rust, `ash` Vulkan
bindings) and verification of its specification claims.

The source of truth is `src/base/mod.rs`, `src/util/mod.rs` and
`src/util/constants.rs`.  Vulkan handles are abstracted as natural numbers
or structures carrying exactly the fields the program inspects; the driver
calls that the program performs are recorded as explicit action lists where
a claim is about call order.  Machine integers that the program never
overflows are modelled as `Nat`; the one place a bit operation matters
(the frame-slot advance, which uses a bitwise AND) is modelled with
`Nat.land` (`&&&`), which agrees with the Rust `usize` AND on the values
involved.
-/

namespace VulkanTesting

/-- Modelled from the spec: the constant `MAX_FRAMES_IN_FLIGHT` is used by
`src/base/mod.rs` (`render_frame`, `create_sync_objects`) but is not defined
in any file under `src/`; `src/util/constants.rs` does not contain it.  The
spec fixes N: the scheduler is described as "double-buffered" and the data
model says "for each of `N` concurrently-in-flight frames (N is a small
fixed constant, e.g. 2)", so N = 2. -/
def MAX_FRAMES_IN_FLIGHT : Nat := 2

/-- From `src/util/constants.rs`: `VALIDATION_LAYER` is the Khronos
validation layer name. -/
def VALIDATION_LAYER : String := "VK_LAYER_KHRONOS_validation"

/-- The `VK_EXT_debug_utils` extension name (`ash::ext::debug_utils::NAME`),
pushed onto the instance extension list when validation is enabled. -/
def DEBUG_UTILS_EXT : String := "VK_EXT_debug_utils"

/-- The `VK_KHR_swapchain` device extension name
(`ash::khr::swapchain::NAME`), the required device extension requested in
`App::create`. -/
def SWAPCHAIN_EXT : String := "VK_KHR_swapchain"

/-- `u32::MAX`, the Vulkan "any extent" sentinel value checked by
`SwapchainSupport::get_extent`. -/
def U32_MAX : Nat := 4294967295

/-
## Instance creation (`create_instance`, src/base/mod.rs lines 226-314)
-/

/-- The parts of `vk::InstanceCreateInfo` (and the debug-messenger side
effect) that `create_instance` controls: the enabled layer list, the
enabled extension list, and whether a debug messenger is installed. -/
structure InstanceCreateResult where
  enabledLayerNames : List String
  enabledExtensionNames : List String
  hasDebugMessenger : Bool
deriving DecidableEq, Repr

/-- Embedding of `create_instance` (src/base/mod.rs lines 226-314) on a
non-Apple target.  `platformExts` stands for
`ash_window::enumerate_required_extensions`.  Faithful to the source:
`layer_names_raw` is always `[VALIDATION_LAYER]` and is passed to
`enabled_layer_names` unconditionally; the debug-utils extension is pushed
and the debug messenger created only when `validationEnabled`
(`VALIDATION_ENABLED` in the source, a build-profile boolean). -/
def create_instance (validationEnabled : Bool) (platformExts : List String) :
    InstanceCreateResult :=
  let layer_names := [VALIDATION_LAYER]
  let extension_names :=
    platformExts ++ (if validationEnabled then [DEBUG_UTILS_EXT] else [])
  { enabledLayerNames := layer_names
  , enabledExtensionNames := extension_names
  , hasDebugMessenger := validationEnabled }

/-
## Physical-device selection (`choose_device`, src/base/mod.rs lines 338-411,
   `QueueFamilyIndices::get` lines 816-840)
-/

/-- The two facts about a queue family that `QueueFamilyIndices::get`
queries: whether `queue_flags` contains `GRAPHICS`, and
`get_physical_device_surface_support` for this family index. -/
structure QueueFamilyProp where
  graphics : Bool
  surfaceSupport : Bool
deriving DecidableEq, Repr

/-- Result of `QueueFamilyIndices::get`. -/
structure QueueFamilyIndices where
  graphics : Nat
  present : Nat
deriving DecidableEq, Repr

/-- Embedding of `QueueFamilyIndices::get`: the graphics index is the first
family whose flags contain `GRAPHICS` (`position`); the present index is
the first family supporting the surface (loop with `break`); `Err` when
either is missing. -/
def QueueFamilyIndices.get (props : List QueueFamilyProp) :
    Except String QueueFamilyIndices :=
  match props.findIdx? (fun p => p.graphics),
        props.findIdx? (fun p => p.surfaceSupport) with
  | some g, some p => .ok ⟨g, p⟩
  | _, _ => .error "Missing required queue families."

/-- A `(format, color_space)` pair as reported by
`get_physical_device_surface_formats`; the numeric codes are the Vulkan
enum values. -/
structure SurfaceFormat where
  format : Nat
  colorSpace : Nat
deriving DecidableEq, Repr

/-- Vulkan enum value of `vk::Format::B8G8R8A8_SRGB`. -/
def B8G8R8A8_SRGB : Nat := 50

/-- Vulkan enum value of `vk::ColorSpaceKHR::SRGB_NONLINEAR`. -/
def SRGB_NONLINEAR : Nat := 0

/-- The fields of `vk::SurfaceCapabilitiesKHR` that the program reads. -/
structure SurfaceCapabilities where
  minImageCount : Nat
  maxImageCount : Nat
  currentExtentW : Nat
  currentExtentH : Nat
  minImageExtentW : Nat
  minImageExtentH : Nat
  maxImageExtentW : Nat
  maxImageExtentH : Nat
deriving DecidableEq, Repr

/-- `SwapchainSupport` (src/base/mod.rs lines 842-847): surface
capabilities, reported formats, reported present modes (present modes as
their Vulkan enum codes). -/
structure SwapchainSupport where
  capabilities : SurfaceCapabilities
  formats : List SurfaceFormat
  presentModes : List Nat
deriving DecidableEq, Repr

/-- One physical device as `choose_device` observes it: its queue family
properties, its supported device extensions
(`enumerate_device_extension_properties`), and the swapchain support that
`SwapchainSupport::get` would report for it. -/
structure PhysDevice where
  queueFamilies : List QueueFamilyProp
  extensions : List String
  support : SwapchainSupport
deriving DecidableEq, Repr

/-- The error message both `phys_device` and `swapchain_support` are
initialised to in `choose_device`. -/
def DEVICE_SELECTION_ERROR : String := "Failed to find suitable physical device."

/-- The device-iteration loop of `choose_device` (src/base/mod.rs lines
357-396), returning the final values of the mutable `phys_device` and
`swapchain_support` results.  Faithful to the source's control flow:
a queue-family failure logs and continues to the next device; a missing
required extension `break`s out of the loop with both results untouched;
empty formats or present modes `break`s after `swapchain_support` was
already set to `Ok`; otherwise the device is selected and the loop
`break`s. -/
def choose_device_loop (requiredExts : List String) :
    List PhysDevice → Except String PhysDevice × Except String SwapchainSupport
  | [] => (.error DEVICE_SELECTION_ERROR, .error DEVICE_SELECTION_ERROR)
  | d :: rest =>
    match QueueFamilyIndices.get d.queueFamilies with
    | .error _ => choose_device_loop requiredExts rest
    | .ok _ =>
      if ¬ (requiredExts.all (fun e => d.extensions.contains e)) then
        (.error DEVICE_SELECTION_ERROR, .error DEVICE_SELECTION_ERROR)
      else
        let support := d.support
        if support.formats.isEmpty ∨ support.presentModes.isEmpty then
          (.error DEVICE_SELECTION_ERROR, .ok support)
        else
          (.ok d, .ok support)

/-- Embedding of `choose_device` (src/base/mod.rs lines 338-411): run the
loop, then store `swapchain_support` (returning its error if it is still
`Err`), then store `phys_device` (likewise). -/
def choose_device (requiredExts : List String) (devices : List PhysDevice) :
    Except String (PhysDevice × SwapchainSupport) :=
  let (pd, ss) := choose_device_loop requiredExts devices
  match ss with
  | .error e => .error e
  | .ok s =>
    match pd with
    | .error e => .error e
    | .ok p => .ok (p, s)

/-- Whether `QueueFamilyIndices::get` succeeds for a device (check 1 of the
spec's eligibility triple). -/
def passes_queue_check (d : PhysDevice) : Bool :=
  match QueueFamilyIndices.get d.queueFamilies with
  | .ok _ => true
  | .error _ => false

/-- Check 2: every required device extension is present. -/
def passes_extension_check (requiredExts : List String) (d : PhysDevice) : Bool :=
  requiredExts.all (fun e => d.extensions.contains e)

/-- Check 3: non-empty formats and present modes. -/
def passes_swapchain_check (d : PhysDevice) : Bool :=
  !d.support.formats.isEmpty && !d.support.presentModes.isEmpty

/-- The spec's eligibility predicate: all three checks pass. -/
def eligible (requiredExts : List String) (d : PhysDevice) : Bool :=
  passes_queue_check d && passes_extension_check requiredExts d &&
    passes_swapchain_check d

/-
## Swapchain creation (`create_swapchain` lines 454-506,
   `SwapchainSupport` helper methods lines 863-897,
   `create_swapchain_image_views` lines 508-540)
-/

/-- Embedding of `SwapchainSupport::get_surface_format` (lines 863-872):
`find` the `B8G8R8A8_SRGB` / `SRGB_NONLINEAR` pair, falling back to
`formats[0]`.  The Rust indexing panics on an empty list; the panic is
modelled as `none` (`List.head?`). -/
def get_surface_format (formats : List SurfaceFormat) : Option SurfaceFormat :=
  match formats.find? (fun f =>
      f.format == B8G8R8A8_SRGB && f.colorSpace == SRGB_NONLINEAR) with
  | some f => some f
  | none => formats.head?

/-- Rust `Ord::clamp` on `u32` for `min ≤ max` (the Rust function asserts
`min ≤ max` and panics otherwise; the program only ever calls it with the
surface-reported min/max image extents). -/
def rustClamp (v lo hi : Nat) : Nat :=
  if v < lo then lo else if v > hi then hi else v

/-- A `vk::Extent2D`. -/
structure Extent2D where
  width : Nat
  height : Nat
deriving DecidableEq, Repr

/-- Embedding of `SwapchainSupport::get_extent` (lines 882-896): when
`current_extent.width != u32::MAX` the surface-reported current extent is
used verbatim; otherwise the window inner size (`windowW`, `windowH`) is
clamped componentwise into `[min_image_extent, max_image_extent]`. -/
def get_extent (caps : SurfaceCapabilities) (windowW windowH : Nat) : Extent2D :=
  if caps.currentExtentW ≠ U32_MAX then
    ⟨caps.currentExtentW, caps.currentExtentH⟩
  else
    ⟨rustClamp windowW caps.minImageExtentW caps.maxImageExtentW,
     rustClamp windowH caps.minImageExtentH caps.maxImageExtentH⟩

/-- The requested image count computed in `create_swapchain` (lines
465-470): `min_image_count + 1`, overwritten with `max_image_count` when
that cap is nonzero and exceeded. -/
def swapchain_image_count (caps : SurfaceCapabilities) : Nat :=
  let count := caps.minImageCount + 1
  if caps.maxImageCount ≠ 0 ∧ count > caps.maxImageCount then
    caps.maxImageCount
  else
    count

/-- The fields of one `vk::ImageViewCreateInfo` that
`create_swapchain_image_views` fills in (identity component mapping, color
aspect, single mip level and array layer are fixed in the source and
elided). -/
structure ImageViewInfo where
  image : Nat
  format : Nat
deriving DecidableEq, Repr

/-- Embedding of `create_swapchain_image_views` (lines 508-540): one view
per element of `swapchain_images`, in order, each with the swapchain
format. -/
def create_swapchain_image_views (format : Nat) (images : List Nat) :
    List ImageViewInfo :=
  images.map (fun i => ⟨i, format⟩)

/-
## Shader bytecode (`Bytecode`, src/util/mod.rs lines 36-61,
   `create_shader_module`, src/base/mod.rs lines 690-702)
-/

/-- Reinterpret a byte list as little-endian 32-bit words, 4 bytes per
word, as `Bytecode::code` does by casting the 4-aligned allocation to
`*const u32`; a trailing group of fewer than 4 bytes yields no word (the
constructor guarantees there is none). -/
def bytesToWords : List Nat → List Nat
  | b0 :: b1 :: b2 :: b3 :: rest =>
    (b0 + b1 * 256 + b2 * 65536 + b3 * 16777216) :: bytesToWords rest
  | _ => []

/-- The `Bytecode` wrapper (src/util/mod.rs): an owned copy of the byte
buffer.  The raw-pointer allocation is modelled by the list itself. -/
structure Bytecode where
  data : List Nat
deriving DecidableEq, Repr

/-- Embedding of `Bytecode::from` (src/util/mod.rs lines 37-54): reject an
empty buffer or a length not divisible by 4, otherwise copy the bytes.
The allocation-failure branch (`ptr.is_null()`) is an out-of-memory
condition outside the model. -/
def Bytecode.fromBytes (bytecode : List Nat) : Except String Bytecode :=
  if bytecode.isEmpty || bytecode.length % 4 != 0 then
    .error "Invalid bytecode buffer length"
  else
    .ok ⟨bytecode⟩

/-- Embedding of `Bytecode::code` (src/util/mod.rs lines 56-60). -/
def Bytecode.code (b : Bytecode) : List Nat :=
  bytesToWords b.data

/-- A device call made by `create_shader_module`; the payload is the word
slice passed in `ShaderModuleCreateInfo::code`. -/
inductive DeviceCall where
  | createShaderModule (codeWords : List Nat)
deriving DecidableEq, Repr

/-- Embedding of `create_shader_module` (src/base/mod.rs lines 690-702):
`Bytecode::from` is run first and its error propagates with `?` before the
device is touched; on success the device call is made with the word
slice.  The second component records the device calls performed. -/
def create_shader_module (bytes : List Nat) :
    Except String (List Nat) × List DeviceCall :=
  match Bytecode.fromBytes bytes with
  | .error e => (.error e, [])
  | .ok bc => (.ok bc.code, [.createShaderModule bc.code])

/-
## Command-buffer recording (`create_command_buffers`, lines 737-780)
-/

/-- Commands recorded into one command buffer.  The clear color carries the
four `float32` components of the `ClearColorValue`; the recorded literals
`0.0` and `1.0` are exactly representable, so they are modelled as the
naturals 0 and 1. -/
inductive Cmd where
  | beginBuffer
  | beginRenderPass (framebuffer : Nat) (clear : Nat × Nat × Nat × Nat)
  | bindPipeline
  | draw (vertexCount instanceCount firstVertex firstInstance : Nat)
  | endRenderPass
  | endBuffer
deriving DecidableEq, Repr

/-- The body of the recording loop of `create_command_buffers` (lines
748-777) for buffer index `i`: begin, begin render pass on framebuffer `i`
with clear color `[0.0, 0.0, 0.0, 1.0]`, bind the graphics pipeline,
`cmd_draw(3, 1, 0, 0)`, end render pass, end buffer. -/
def record_command_buffer (i : Nat) : List Cmd :=
  [ .beginBuffer
  , .beginRenderPass i (0, 0, 0, 1)
  , .bindPipeline
  , .draw 3 1 0 0
  , .endRenderPass
  , .endBuffer ]

/-- Embedding of `create_command_buffers` (lines 737-780): one primary
command buffer per framebuffer (one framebuffer per swapchain image),
recorded by the loop body. -/
def create_command_buffers (numFramebuffers : Nat) : List (List Cmd) :=
  (List.range numFramebuffers).map record_command_buffer

/-- `true` exactly on `beginRenderPass` commands. -/
def Cmd.isBeginRenderPass : Cmd → Bool
  | .beginRenderPass _ _ => true
  | _ => false

/-- The `(vertex_count, instance_count)` of a draw command. -/
def Cmd.drawArgs : Cmd → Option (Nat × Nat)
  | .draw v i _ _ => some (v, i)
  | _ => none

/-- The clear color of a `beginRenderPass` command. -/
def Cmd.clearColor : Cmd → Option (Nat × Nat × Nat × Nat)
  | .beginRenderPass _ c => some c
  | _ => none

/-
## Synchronisation objects and the frame scheduler
   (`create_sync_objects` lines 782-804, `App::render_frame` lines 148-196)
-/

/-- Embedding of `create_sync_objects` (lines 782-804), restricted to the
state the scheduler later reads: the signal state of the `N` in-flight
fences (each created with `FenceCreateFlags::SIGNALED`, hence `true`), and
`images_in_flight`, one entry per swapchain image, each the null fence
(`none`).  A non-null entry `some s` identifies the in-flight fence of
frame slot `s`. -/
def create_sync_objects (numImages : Nat) :
    List Bool × List (Option Nat) :=
  (List.replicate MAX_FRAMES_IN_FLIGHT true, List.replicate numImages none)

/-- The mutable scheduler state of `App`: the frame-slot counter
(`self.frame`, initialised to 0 in `App::create`), the signal state of each
slot's in-flight fence, and `images_in_flight`. -/
structure AppState where
  frame : Nat
  inFlightSignaled : List Bool
  imagesInFlight : List (Option Nat)
deriving DecidableEq, Repr

/-- The scheduler state right after `App::create`: `frame = 0` and the
sync objects of `create_sync_objects`. -/
def App.initial_state (numImages : Nat) : AppState :=
  { frame := 0
  , inFlightSignaled := (create_sync_objects numImages).1
  , imagesInFlight := (create_sync_objects numImages).2 }

/-- The frame-slot advance on line 193 of src/base/mod.rs:
`self.frame = (self.frame + 1) & MAX_FRAMES_IN_FLIGHT;` — a bitwise AND
with `MAX_FRAMES_IN_FLIGHT` itself. -/
def advance_frame (frame : Nat) : Nat :=
  (frame + 1) &&& MAX_FRAMES_IN_FLIGHT

/-- CPU-visible steps of one `render_frame` call, in program order.
`waitInFlightFence slot alreadySignaled` is the `wait_for_fences` on the
slot's fence; `alreadySignaled = true` means the fence was already
signaled when the wait was issued, so the call returns immediately rather
than blocking. -/
inductive FrameAction where
  | waitInFlightFence (slot : Nat) (alreadySignaled : Bool)
  | acquireImage (image : Nat)
  | waitImageFence (slot : Nat)
  | resetFence (slot : Nat)
  | submit (slot image : Nat)
  | present (image : Nat)
deriving DecidableEq, Repr

/-- Embedding of a successful `App::render_frame` (lines 148-196).
`imageIndex` is the index returned by `acquire_next_image` (driver
choice).  The unbounded-timeout fence wait returns once the fence is
signaled, so afterwards the waited fence is signaled; `reset_fences`
unsignals the slot's fence before `queue_submit`; GPU completion that
would re-signal it is asynchronous and not part of this call.  Returns the
post-state and the ordered action trace. -/
def render_frame (s : AppState) (imageIndex : Nat) : AppState × List FrameAction :=
  let f := s.frame
  let a1 := FrameAction.waitInFlightFence f (s.inFlightSignaled.getD f false)
  let s1 := { s with inFlightSignaled := s.inFlightSignaled.set f true }
  let a2 := FrameAction.acquireImage imageIndex
  let imageWaits :=
    match s1.imagesInFlight.getD imageIndex none with
    | some owner => [FrameAction.waitImageFence owner]
    | none => []
  let s2 := { s1 with imagesInFlight := s1.imagesInFlight.set imageIndex (some f) }
  let s3 := { s2 with inFlightSignaled := s2.inFlightSignaled.set f false }
  let s4 := { s3 with frame := advance_frame f }
  (s4, [a1, a2] ++ imageWaits ++
    [FrameAction.resetFence f, FrameAction.submit f imageIndex,
     FrameAction.present imageIndex])

/-
## Teardown (`App::destroy`, lines 198-219)
-/

/-- One step of `App::destroy`, identified by the object it releases
(indices distinguish the per-slot and per-image objects). -/
inductive TeardownAction where
  | deviceWaitIdle
  | destroyFence (slot : Nat)
  | destroyRenderFinishedSemaphore (slot : Nat)
  | destroyImageAvailableSemaphore (slot : Nat)
  | destroyCommandPool
  | destroyFramebuffer (i : Nat)
  | destroyPipeline
  | destroyPipelineLayout
  | destroyRenderPass
  | destroyImageView (i : Nat)
  | destroySwapchain
  | destroyDevice
  | destroySurface
  | destroyDebugMessenger
  | destroyInstance
deriving DecidableEq, Repr

/-- Embedding of `App::destroy` (lines 198-219) as the ordered list of
steps it performs: `device_wait_idle` first, then each statement of the
function body in source order.  `numSlots` is the length of the three sync
lists (`MAX_FRAMES_IN_FLIGHT` in a real run), `numFramebuffers` and
`numViews` the lengths of the framebuffer and image-view lists, and
`validationEnabled` the `VALIDATION_ENABLED` constant guarding the debug
messenger. -/
def destroy (numSlots numFramebuffers numViews : Nat) (validationEnabled : Bool) :
    List TeardownAction :=
  [TeardownAction.deviceWaitIdle]
    ++ (List.range numSlots).map TeardownAction.destroyFence
    ++ (List.range numSlots).map TeardownAction.destroyRenderFinishedSemaphore
    ++ (List.range numSlots).map TeardownAction.destroyImageAvailableSemaphore
    ++ [TeardownAction.destroyCommandPool]
    ++ (List.range numFramebuffers).map TeardownAction.destroyFramebuffer
    ++ [TeardownAction.destroyPipeline, TeardownAction.destroyPipelineLayout,
        TeardownAction.destroyRenderPass]
    ++ (List.range numViews).map TeardownAction.destroyImageView
    ++ [TeardownAction.destroySwapchain, TeardownAction.destroyDevice,
        TeardownAction.destroySurface]
    ++ (if validationEnabled then [TeardownAction.destroyDebugMessenger] else [])
    ++ [TeardownAction.destroyInstance]

/-- The position of each teardown step in the destruction order the claim
describes (wait-idle strictly first, then fences, semaphores, command
pool, framebuffers, pipeline, pipeline layout, render pass, image views,
swapchain, device, surface, debug messenger, instance). -/
def teardownRank : TeardownAction → Nat
  | .deviceWaitIdle => 0
  | .destroyFence _ => 1
  | .destroyRenderFinishedSemaphore _ => 2
  | .destroyImageAvailableSemaphore _ => 3
  | .destroyCommandPool => 4
  | .destroyFramebuffer _ => 5
  | .destroyPipeline => 6
  | .destroyPipelineLayout => 7
  | .destroyRenderPass => 8
  | .destroyImageView _ => 9
  | .destroySwapchain => 10
  | .destroyDevice => 11
  | .destroySurface => 12
  | .destroyDebugMessenger => 13
  | .destroyInstance => 14

/-
## Concrete fixtures used by counterexamples and witnesses
-/

/-- Surface capabilities reporting `min_image_count = 1`,
`max_image_count = 0` (unbounded), fixed current extent 800x600. -/
def capsMinOneUnbounded : SurfaceCapabilities :=
  ⟨1, 0, 800, 600, 1, 1, 4096, 4096⟩

/-- Surface capabilities with a fixed current extent (500, 500) lying
strictly below the reported minimum image extent (600, 600). -/
def capsFixedSmall : SurfaceCapabilities :=
  ⟨1, 0, 500, 500, 600, 600, 700, 700⟩

/-- Surface capabilities reporting the "any extent" sentinel
(`current_extent.width = u32::MAX`) with image extent range
[100, 200] in both dimensions. -/
def capsSentinel : SurfaceCapabilities :=
  ⟨1, 0, U32_MAX, 500, 100, 100, 200, 200⟩

/-- A fully eligible physical device: one graphics+present queue family,
the swapchain extension, and non-empty formats and present modes. -/
def deviceEligible : PhysDevice :=
  { queueFamilies := [⟨true, true⟩]
  , extensions := [SWAPCHAIN_EXT]
  , support := { capabilities := capsMinOneUnbounded
               , formats := [⟨B8G8R8A8_SRGB, SRGB_NONLINEAR⟩]
               , presentModes := [2] } }

/-- A device with adequate queue families but no device extensions (it
fails the required-extension check). -/
def deviceMissingExtension : PhysDevice :=
  { queueFamilies := [⟨true, true⟩]
  , extensions := []
  , support := { capabilities := capsMinOneUnbounded
               , formats := [⟨B8G8R8A8_SRGB, SRGB_NONLINEAR⟩]
               , presentModes := [2] } }

/-- A device with no queue families at all (it fails the queue-family
check and is skipped by the selection loop). -/
def deviceNoQueues : PhysDevice :=
  { queueFamilies := []
  , extensions := [SWAPCHAIN_EXT]
  , support := { capabilities := capsMinOneUnbounded
               , formats := []
               , presentModes := [] } }

/-
## Helper lemmas
-/

theorem bytesToWords_length : ∀ l : List Nat, (bytesToWords l).length = l.length / 4
  | [] => rfl
  | [_] => by simp [bytesToWords]
  | [_, _] => by simp [bytesToWords]
  | [_, _, _] => by simp [bytesToWords]
  | _ :: _ :: _ :: _ :: rest => by
    have ih := bytesToWords_length rest
    simp only [bytesToWords, List.length_cons, ih]
    omega

theorem rustClamp_mem (v lo hi : Nat) (h : lo ≤ hi) :
    lo ≤ rustClamp v lo hi ∧ rustClamp v lo hi ≤ hi := by
  unfold rustClamp
  split_ifs <;> omega

theorem pairwise_of_total {α : Type} (R : α → α → Prop) (h : ∀ a b, R a b) :
    ∀ l : List α, l.Pairwise R
  | [] => .nil
  | x :: xs => .cons (fun y _ => h x y) (pairwise_of_total R h xs)

theorem preferred_format_pred (f : SurfaceFormat) :
    ((f.format == B8G8R8A8_SRGB && f.colorSpace == SRGB_NONLINEAR) = true) ↔
      f = ⟨B8G8R8A8_SRGB, SRGB_NONLINEAR⟩ := by
  cases f
  simp [SurfaceFormat.mk.injEq]

/-
## Claim theorems
-/

/-- C1: the claim says that after every successful `render_frame` the frame
slot advances to `(frame_slot + 1) mod N` with `N = MAX_FRAMES_IN_FLIGHT`.
The code (src/base/mod.rs line 193) instead computes
`(frame + 1) & MAX_FRAMES_IN_FLIGHT` — a bitwise AND with `N` itself, not
with `N - 1` and not a modulus — so from slot 0 the next slot is
`(0 + 1) &&& 2 = 0`, not `(0 + 1) % 2 = 1`: the counter never leaves 0.
This theorem evaluates the code at the failing input: the advance yields 0
where the claim requires 1, a full `render_frame` call from the freshly
created state leaves the slot at 0, and so does a second call. -/
theorem render_frame_slot_advance_bug :
    advance_frame 0 = 0
    ∧ (0 + 1) % MAX_FRAMES_IN_FLIGHT = 1
    ∧ (render_frame (App.initial_state 2) 0).1.frame = 0
    ∧ (render_frame (render_frame (App.initial_state 2) 0).1 1).1.frame = 0 :=
  ⟨rfl, rfl, rfl, rfl⟩

/-- C3 counterexample: with diagnostics disabled the claim says no
validation layer name is included in the instance create info, but
`create_instance` (src/base/mod.rs line 277) passes `layer_names_raw =
[VALIDATION_LAYER]` to `enabled_layer_names` unconditionally: at
`validationEnabled = false` the enabled layer list is still
`[VALIDATION_LAYER]`. -/
theorem create_instance_layer_counterexample :
    (create_instance false []).enabledLayerNames = [VALIDATION_LAYER] :=
  rfl

/-- C3 amended: the debug-utils extension is included in the instance
create info, and the debug messenger installed, exactly when diagnostics
are enabled — but the validation layer name is always included in
`enabled_layer_names`, regardless of the toggle. -/
theorem create_instance_toggle_amended (validationEnabled : Bool)
    (platformExts : List String) (h : DEBUG_UTILS_EXT ∉ platformExts) :
    (create_instance validationEnabled platformExts).enabledLayerNames
        = [VALIDATION_LAYER]
    ∧ (DEBUG_UTILS_EXT ∈
          (create_instance validationEnabled platformExts).enabledExtensionNames
        ↔ validationEnabled = true)
    ∧ (create_instance validationEnabled platformExts).hasDebugMessenger
        = validationEnabled := by
  cases validationEnabled <;> simp [create_instance, h]

/-- C3 amended witness: at `validationEnabled = true` with no platform
extensions, the layer list is `[VALIDATION_LAYER]`, the debug-utils
extension is present, and the messenger is installed. -/
theorem create_instance_toggle_amended_witness :
    (create_instance true []).enabledLayerNames = [VALIDATION_LAYER]
    ∧ (DEBUG_UTILS_EXT ∈ (create_instance true []).enabledExtensionNames
        ↔ true = true)
    ∧ (create_instance true []).hasDebugMessenger = true :=
  create_instance_toggle_amended true [] (by simp)

/-- C7: the requested swapchain image count is `min_image_count + 1`,
capped at `max_image_count` when that cap is nonzero (zero meaning
unbounded), as computed in `create_swapchain`
(src/base/mod.rs lines 465-470). -/
theorem swapchain_image_count_spec (caps : SurfaceCapabilities) :
    (caps.maxImageCount = 0 →
      swapchain_image_count caps = caps.minImageCount + 1)
    ∧ (caps.maxImageCount ≠ 0 →
      swapchain_image_count caps
        = Nat.min (caps.minImageCount + 1) caps.maxImageCount) := by
  constructor <;> intro h <;> simp only [swapchain_image_count, Nat.min_def] <;>
    split_ifs <;> omega

/-- C7 witness: a surface reporting `min_image_count = 1` and
`max_image_count = 0` (unbounded) yields a requested image count of
exactly 2. -/
theorem swapchain_image_count_spec_witness :
    swapchain_image_count capsMinOneUnbounded = 2 := by
  have h := (swapchain_image_count_spec capsMinOneUnbounded).1 rfl
  simpa [capsMinOneUnbounded] using h

/-- C9: shader-module creation fails with a bytecode error exactly when
the byte slice is empty or its length is not a multiple of 4
(`Bytecode::from`, src/util/mod.rs lines 37-54), in which case
`create_shader_module` performs no device call (`Bytecode::from` is run
with `?` first, src/base/mod.rs line 694); for a nonzero length divisible
by 4 validation succeeds and the word slice has length `bytes / 4`. -/
theorem bytecode_validation_spec (bytes : List Nat) :
    ((∃ e, Bytecode.fromBytes bytes = .error e)
        ↔ bytes = [] ∨ bytes.length % 4 ≠ 0)
    ∧ (bytes = [] ∨ bytes.length % 4 ≠ 0 →
        (create_shader_module bytes).2 = [])
    ∧ (bytes ≠ [] → bytes.length % 4 = 0 →
        Bytecode.fromBytes bytes = .ok ⟨bytes⟩
        ∧ (Bytecode.mk bytes).code.length = bytes.length / 4
        ∧ (create_shader_module bytes).1 = .ok (Bytecode.mk bytes).code
        ∧ (create_shader_module bytes).2
            = [.createShaderModule (Bytecode.mk bytes).code]) := by
  have herr : bytes = [] ∨ bytes.length % 4 ≠ 0 →
      Bytecode.fromBytes bytes = .error "Invalid bytecode buffer length" := by
    intro h
    unfold Bytecode.fromBytes
    rw [if_pos]
    simpa [List.isEmpty_iff] using h
  have hok : bytes ≠ [] → bytes.length % 4 = 0 →
      Bytecode.fromBytes bytes = .ok ⟨bytes⟩ := by
    intro h1 h2
    unfold Bytecode.fromBytes
    rw [if_neg]
    simp [List.isEmpty_iff, h1, h2]
  refine ⟨⟨?_, ?_⟩, ?_, ?_⟩
  · rintro ⟨e, he⟩
    by_contra hc
    push_neg at hc
    rw [hok hc.1 hc.2] at he
    simp at he
  · intro h
    exact ⟨_, herr h⟩
  · intro h
    simp [create_shader_module, herr h]
  · intro h1 h2
    refine ⟨hok h1 h2, ?_, ?_, ?_⟩
    · simpa [Bytecode.code] using bytesToWords_length bytes
    · simp [create_shader_module, hok h1 h2]
    · simp [create_shader_module, hok h1 h2]

/-- C9 witness: the 8-byte buffer `[1,2,3,4,5,6,7,8]` validates and its
word slice has length 2 = 8 / 4. -/
theorem bytecode_validation_spec_witness :
    Bytecode.fromBytes [1, 2, 3, 4, 5, 6, 7, 8] = .ok ⟨[1, 2, 3, 4, 5, 6, 7, 8]⟩
    ∧ (Bytecode.mk [1, 2, 3, 4, 5, 6, 7, 8]).code.length = 2 := by
  have h := (bytecode_validation_spec [1, 2, 3, 4, 5, 6, 7, 8]).2.2
    (by decide) (by decide)
  exact ⟨h.1, by simpa using h.2.1⟩

/-- C5: for every swapchain image index `k < n`, the command buffer
recorded by `create_command_buffers` (src/base/mod.rs lines 737-780) for
index `k` contains exactly one begin-render-pass whose clear color is
`(0, 0, 0, 1)`, exactly one draw of 3 vertices and 1 instance, followed by
end-render-pass and end-recording, and the whole recording differs across
`k` only in the framebuffer bound by the render pass. -/
theorem command_buffer_contents (n k : Nat) (h : k < n) :
    ((create_command_buffers n).getD k []).countP
        (fun c => c.isBeginRenderPass) = 1
    ∧ ((create_command_buffers n).getD k []).filterMap Cmd.clearColor
        = [(0, 0, 0, 1)]
    ∧ ((create_command_buffers n).getD k []).filterMap Cmd.drawArgs
        = [(3, 1)]
    ∧ (create_command_buffers n).getD k []
        = [ .beginBuffer, .beginRenderPass k (0, 0, 0, 1), .bindPipeline,
            .draw 3 1 0 0, .endRenderPass, .endBuffer ] := by
  have hk : (create_command_buffers n).getD k [] = record_command_buffer k := by
    simp [create_command_buffers, List.getD_eq_getElem?_getD,
      List.getElem?_map, List.getElem?_range, h]
  rw [hk]
  exact ⟨rfl, rfl, rfl, rfl⟩

/-- C5 witness: the buffer recorded for image index 1 of 3 issues exactly
the draw `(3, 1)` and one render pass with clear color `(0, 0, 0, 1)`. -/
theorem command_buffer_contents_witness :
    1 < 3
    ∧ ((create_command_buffers 3).getD 1 []).filterMap Cmd.drawArgs = [(3, 1)]
    ∧ ((create_command_buffers 3).getD 1 []).filterMap Cmd.clearColor
        = [(0, 0, 0, 1)] :=
  ⟨by decide, (command_buffer_contents 3 1 (by decide)).2.2.1,
    (command_buffer_contents 3 1 (by decide)).2.1⟩

/-- C10: `create_sync_objects` (src/base/mod.rs lines 782-804) creates
every one of the `N` in-flight fences with the `SIGNALED` flag set and
initialises `images_in_flight` to exactly one null fence per swapchain
image; consequently a first `render_frame` call at any frame slot finds
the slot's fence already signaled (its initial wait returns immediately)
and skips the per-image extra fence wait — its trace is exactly
wait (already signaled), acquire, reset, submit, present, with no
image-fence wait. -/
theorem sync_objects_initial_spec (n slot img : Nat)
    (hs : slot < MAX_FRAMES_IN_FLIGHT) (hi : img < n) :
    (create_sync_objects n).1.length = MAX_FRAMES_IN_FLIGHT
    ∧ (create_sync_objects n).1.getD slot false = true
    ∧ (create_sync_objects n).2.length = n
    ∧ (create_sync_objects n).2.getD img none = none
    ∧ (render_frame { App.initial_state n with frame := slot } img).2
        = [ .waitInFlightFence slot true, .acquireImage img,
            .resetFence slot, .submit slot img, .present img ] := by
  have h1 : (List.replicate MAX_FRAMES_IN_FLIGHT true)[slot]?.getD false = true := by
    rw [List.getElem?_replicate]
    simp [hs]
  have h2 : (List.replicate n (none : Option Nat))[img]?.getD none = none := by
    rw [List.getElem?_replicate]
    split <;> rfl
  refine ⟨by simp [create_sync_objects], ?_, by simp [create_sync_objects], ?_, ?_⟩
  · show (List.replicate MAX_FRAMES_IN_FLIGHT true).getD slot false = true
    rw [List.getD_eq_getElem?_getD]
    exact h1
  · show (List.replicate n (none : Option Nat)).getD img none = none
    rw [List.getD_eq_getElem?_getD]
    exact h2
  · simp [render_frame, App.initial_state, create_sync_objects, h1, h2]

/-- C10 witness: with 2 swapchain images, slot 1's fence starts signaled
and a first call at slot 1 acquiring image 0 performs no image-fence wait
and an immediately-returning initial wait. -/
theorem sync_objects_initial_spec_witness :
    (create_sync_objects 2).1.getD 1 false = true
    ∧ (render_frame { App.initial_state 2 with frame := 1 } 0).2
        = [ .waitInFlightFence 1 true, .acquireImage 0, .resetFence 1,
            .submit 1 0, .present 0 ] := by
  have h := sync_objects_initial_spec 2 1 0 (by decide) (by decide)
  exact ⟨h.2.1, h.2.2.2.2⟩

/-- C8: for every non-empty reported format list,
`SwapchainSupport::get_surface_format` (src/base/mod.rs lines 863-872)
returns the `B8G8R8A8_SRGB` / `SRGB_NONLINEAR` pair when it appears
anywhere in the list, and otherwise the list's first element; and the
selection is a deterministic function of the reported list (two selections
over equal lists agree). -/
theorem get_surface_format_spec (formats : List SurfaceFormat)
    (h : formats ≠ []) :
    ((⟨B8G8R8A8_SRGB, SRGB_NONLINEAR⟩ : SurfaceFormat) ∈ formats →
        get_surface_format formats = some ⟨B8G8R8A8_SRGB, SRGB_NONLINEAR⟩)
    ∧ ((⟨B8G8R8A8_SRGB, SRGB_NONLINEAR⟩ : SurfaceFormat) ∉ formats →
        get_surface_format formats = some (formats.head h))
    ∧ ∀ other : List SurfaceFormat, other = formats →
        get_surface_format other = get_surface_format formats := by
  refine ⟨?_, ?_, fun other ho => by rw [ho]⟩
  · intro hmem
    unfold get_surface_format
    cases hf : formats.find?
        (fun f => f.format == B8G8R8A8_SRGB && f.colorSpace == SRGB_NONLINEAR) with
    | none =>
      exfalso
      have hnone := List.find?_eq_none.mp hf _ hmem
      simp at hnone
    | some f =>
      have hp := List.find?_some hf
      rw [(preferred_format_pred f).mp hp]
  · intro hmem
    unfold get_surface_format
    have hf : formats.find?
        (fun f => f.format == B8G8R8A8_SRGB && f.colorSpace == SRGB_NONLINEAR)
          = none := by
      apply List.find?_eq_none.mpr
      intro x hx hpx
      exact hmem (by rwa [(preferred_format_pred x).mp hpx] at hx)
    rw [hf]
    cases formats with
    | nil => exact absurd rfl h
    | cons a l => rfl

/-- C8 witness: in the list `[(44, 0), (B8G8R8A8_SRGB, SRGB_NONLINEAR)]`
the preferred pair is found even though it is not first. -/
theorem get_surface_format_spec_witness :
    get_surface_format [⟨44, 0⟩, ⟨B8G8R8A8_SRGB, SRGB_NONLINEAR⟩]
      = some ⟨B8G8R8A8_SRGB, SRGB_NONLINEAR⟩ :=
  (get_surface_format_spec [⟨44, 0⟩, ⟨B8G8R8A8_SRGB, SRGB_NONLINEAR⟩]
    (by simp)).1 (by simp)

/-- C2 counterexample: `deviceEligible` passes all three checks, yet when
it is enumerated after `deviceMissingExtension` (which passes the
queue-family check but lacks the required extension), `choose_device`
returns the selection error: the `break` on the extension-check failure
(src/base/mod.rs line 379) aborts the whole search, so a failing device
does prevent a later eligible device from being selected, and an error is
returned although an enumerated device passes all three checks. -/
theorem choose_device_break_counterexample :
    eligible [SWAPCHAIN_EXT] deviceEligible = true
    ∧ choose_device [SWAPCHAIN_EXT] [deviceMissingExtension, deviceEligible]
        = .error DEVICE_SELECTION_ERROR :=
  ⟨rfl, rfl⟩

/-- Helper: the selection loop skips any prefix of devices that fail the
queue-family check. -/
theorem choose_device_loop_skip (req : List String) (pre rest : List PhysDevice)
    (hpre : ∀ x ∈ pre, passes_queue_check x = false) :
    choose_device_loop req (pre ++ rest) = choose_device_loop req rest := by
  induction pre with
  | nil => rfl
  | cons x xs ih =>
    have hx := hpre x (List.mem_cons_self x xs)
    have hxs : ∀ y ∈ xs, passes_queue_check y = false :=
      fun y hy => hpre y (List.mem_cons_of_mem x hy)
    unfold passes_queue_check at hx
    cases hq : QueueFamilyIndices.get x.queueFamilies with
    | error e =>
      rw [List.cons_append]
      simp only [choose_device_loop, hq]
      exact ih hxs
    | ok v =>
      rw [hq] at hx
      simp at hx

/-- C2 amended: device selection skips devices failing the queue-family
check, and the first enumerated device passing that check fully determines
the outcome: if it also has every required extension and non-empty
formats and present modes, it is selected together with its swapchain
support; otherwise the loop breaks and `choose_device` returns the
selection error, even if a later enumerated device is fully eligible. -/
theorem choose_device_first_queue_passing_decides (req : List String)
    (pre : List PhysDevice) (d : PhysDevice) (post : List PhysDevice)
    (hpre : ∀ x ∈ pre, passes_queue_check x = false)
    (hd : passes_queue_check d = true) :
    (eligible req d = true →
        choose_device req (pre ++ d :: post) = .ok (d, d.support))
    ∧ (eligible req d = false →
        choose_device req (pre ++ d :: post)
          = .error DEVICE_SELECTION_ERROR) := by
  have hskip := choose_device_loop_skip req pre (d :: post) hpre
  cases hq : QueueFamilyIndices.get d.queueFamilies with
  | error e =>
    unfold passes_queue_check at hd
    rw [hq] at hd
    simp at hd
  | ok q =>
    have hloop : choose_device_loop req (d :: post) =
        (if ¬ (req.all (fun e => d.extensions.contains e)) then
          (.error DEVICE_SELECTION_ERROR, .error DEVICE_SELECTION_ERROR)
        else if d.support.formats.isEmpty ∨ d.support.presentModes.isEmpty then
          (.error DEVICE_SELECTION_ERROR, .ok d.support)
        else (.ok d, .ok d.support)) := by
      simp only [choose_device_loop, hq]
    constructor
    · intro helig
      unfold eligible passes_extension_check passes_swapchain_check at helig
      rw [hd] at helig
      simp only [Bool.true_and, Bool.and_eq_true, Bool.not_eq_true'] at helig
      obtain ⟨hext, hf, hp⟩ := helig
      unfold choose_device
      rw [hskip, hloop, if_neg (by simpa using hext), if_neg (by simp [hf, hp])]
    · intro helig
      unfold eligible passes_extension_check passes_swapchain_check at helig
      rw [hd] at helig
      simp only [Bool.true_and] at helig
      unfold choose_device
      rw [hskip, hloop]
      cases hext : req.all (fun e => d.extensions.contains e) with
      | false => simp [hext]
      | true =>
        rw [hext] at helig
        simp only [Bool.true_and] at helig
        cases hf : d.support.formats.isEmpty with
        | true => simp [hext, hf]
        | false =>
          cases hp : d.support.presentModes.isEmpty with
          | true => simp [hext, hf, hp]
          | false =>
            rw [hf, hp] at helig
            simp at helig

/-- C2 amended witness: `deviceNoQueues` fails the queue-family check and
is skipped; `deviceEligible`, the first device passing it, is eligible and
is selected. -/
theorem choose_device_first_queue_passing_decides_witness :
    choose_device [SWAPCHAIN_EXT] [deviceNoQueues, deviceEligible]
      = .ok (deviceEligible, deviceEligible.support) :=
  (choose_device_first_queue_passing_decides [SWAPCHAIN_EXT] [deviceNoQueues]
      deviceEligible []
      (fun x hx => by rw [List.mem_singleton.mp hx]; rfl)
      rfl).1 rfl

/-- C6 counterexample: the claim requires the chosen extent to lie within
`[min_image_extent, max_image_extent]` whenever the surface does NOT
report the "any extent" sentinel, but in that case `get_extent`
(src/base/mod.rs lines 882-896) returns the surface-reported current
extent verbatim without clamping: for `capsFixedSmall` (current extent
500, minimum image extent 600) the chosen width 500 falls below the
minimum, for any window size (here 800x600). -/
theorem get_extent_counterexample :
    capsFixedSmall.currentExtentW ≠ U32_MAX
    ∧ (get_extent capsFixedSmall 800 600).width < capsFixedSmall.minImageExtentW := by
  constructor
  · decide
  · decide

/-- C6 amended: the number of image views equals the number of swapchain
images (one view per image); in the sentinel case
(`current_extent.width = u32::MAX`) the chosen extent is the window pixel
size clamped componentwise into `[min_image_extent, max_image_extent]` —
and hence lies within that range whenever the reported range is
well-formed (`min ≤ max`, which the Rust `clamp` otherwise panics on) —
while in the non-sentinel case the surface-reported current extent is
used verbatim (with no range guarantee). -/
theorem swapchain_views_extent_amended (caps : SurfaceCapabilities)
    (winW winH : Nat) (format : Nat) (images : List Nat) :
    (create_swapchain_image_views format images).length = images.length
    ∧ (caps.currentExtentW ≠ U32_MAX →
        get_extent caps winW winH = ⟨caps.currentExtentW, caps.currentExtentH⟩)
    ∧ (caps.currentExtentW = U32_MAX →
        caps.minImageExtentW ≤ caps.maxImageExtentW →
        caps.minImageExtentH ≤ caps.maxImageExtentH →
        get_extent caps winW winH
            = ⟨rustClamp winW caps.minImageExtentW caps.maxImageExtentW,
               rustClamp winH caps.minImageExtentH caps.maxImageExtentH⟩
        ∧ caps.minImageExtentW ≤ (get_extent caps winW winH).width
        ∧ (get_extent caps winW winH).width ≤ caps.maxImageExtentW
        ∧ caps.minImageExtentH ≤ (get_extent caps winW winH).height
        ∧ (get_extent caps winW winH).height ≤ caps.maxImageExtentH) := by
  refine ⟨by simp [create_swapchain_image_views], ?_, ?_⟩
  · intro h
    simp [get_extent, h]
  · intro h hw hh
    have hget : get_extent caps winW winH
        = ⟨rustClamp winW caps.minImageExtentW caps.maxImageExtentW,
           rustClamp winH caps.minImageExtentH caps.maxImageExtentH⟩ := by
      simp [get_extent, h]
    obtain ⟨hw1, hw2⟩ := rustClamp_mem winW _ _ hw
    obtain ⟨hh1, hh2⟩ := rustClamp_mem winH _ _ hh
    rw [hget]
    exact ⟨rfl, hw1, hw2, hh1, hh2⟩

/-- C6 amended witness: with the sentinel capabilities (`current width =
u32::MAX`, extent range [100, 200]) and a 800x600 window, there is one
view per image and the chosen extent is the clamped window size, whose
width is at least the minimum 100. -/
theorem swapchain_views_extent_amended_witness :
    (create_swapchain_image_views 50 [7, 8]).length = [7, 8].length
    ∧ get_extent capsSentinel 800 600
        = ⟨rustClamp 800 100 200, rustClamp 600 100 200⟩
    ∧ 100 ≤ (get_extent capsSentinel 800 600).width := by
  have h := swapchain_views_extent_amended capsSentinel 800 600 50 [7, 8]
  exact ⟨h.1, (h.2.2 rfl (by decide) (by decide)).1,
    (h.2.2 rfl (by decide) (by decide)).2.1⟩

/-- Helper for the teardown-order claim: the right-associated teardown
sequence is ordered by `teardownRank`, for any debug segment of rank 13.
-/
theorem destroy_pairwise_core (ns nf nv : Nat) (s9 : List TeardownAction)
    (h9p : s9.Pairwise (fun a b => teardownRank a ≤ teardownRank b))
    (h9b : ∀ a ∈ s9, teardownRank a = 13) :
    ([TeardownAction.deviceWaitIdle]
      ++ ((List.range ns).map TeardownAction.destroyFence
      ++ ((List.range ns).map TeardownAction.destroyRenderFinishedSemaphore
      ++ ((List.range ns).map TeardownAction.destroyImageAvailableSemaphore
      ++ ([TeardownAction.destroyCommandPool]
      ++ ((List.range nf).map TeardownAction.destroyFramebuffer
      ++ ([TeardownAction.destroyPipeline, TeardownAction.destroyPipelineLayout,
           TeardownAction.destroyRenderPass]
      ++ ((List.range nv).map TeardownAction.destroyImageView
      ++ ([TeardownAction.destroySwapchain, TeardownAction.destroyDevice,
           TeardownAction.destroySurface]
      ++ (s9
      ++ [TeardownAction.destroyInstance])))))))))).Pairwise
        (fun a b => teardownRank a ≤ teardownRank b) := by
  have app : ∀ (c : Nat) (l1 l2 : List TeardownAction),
      l1.Pairwise (fun a b => teardownRank a ≤ teardownRank b) →
      l2.Pairwise (fun a b => teardownRank a ≤ teardownRank b) →
      (∀ a ∈ l1, teardownRank a ≤ c) → (∀ a ∈ l2, c ≤ teardownRank a) →
      (l1 ++ l2).Pairwise (fun a b => teardownRank a ≤ teardownRank b) := by
    intro c l1 l2 h1 h2 bb1 bb2
    exact List.pairwise_append.mpr
      ⟨h1, h2, fun a ha b hb => le_trans (bb1 a ha) (bb2 b hb)⟩
  have bapp : ∀ (c : Nat) (l1 l2 : List TeardownAction),
      (∀ a ∈ l1, c ≤ teardownRank a) → (∀ a ∈ l2, c ≤ teardownRank a) →
      ∀ a ∈ l1 ++ l2, c ≤ teardownRank a := by
    intro c l1 l2 h1 h2 a ha
    rcases List.mem_append.mp ha with h | h
    exacts [h1 a h, h2 a h]
  have memrank : ∀ (f : Nat → TeardownAction) (c m : Nat),
      (∀ k, teardownRank (f k) = c) →
      ∀ a ∈ (List.range m).map f, teardownRank a = c := by
    intro f c m hc a ha
    obtain ⟨k, _, rfl⟩ := List.mem_map.mp ha
    exact hc k
  have hseg : ∀ (f : Nat → TeardownAction) (c m : Nat),
      (∀ k, teardownRank (f k) = c) →
      ((List.range m).map f).Pairwise (fun a b => teardownRank a ≤ teardownRank b) := by
    intro f c m hc
    exact List.pairwise_map.mpr
      (pairwise_of_total _ (fun a b => by rw [hc a, hc b]) _)
  have p1 := app 13 s9 [TeardownAction.destroyInstance] h9p (by decide)
    (fun a ha => le_of_eq (h9b a ha)) (by decide)
  have b1 := bapp 13 s9 [TeardownAction.destroyInstance]
    (fun a ha => le_of_eq (h9b a ha).symm) (by decide)
  have p2 := app 13
    [TeardownAction.destroySwapchain, TeardownAction.destroyDevice, TeardownAction.destroySurface]
    (s9 ++ [TeardownAction.destroyInstance]) (by decide) p1 (by decide) b1
  have b2 := bapp 10
    [TeardownAction.destroySwapchain, TeardownAction.destroyDevice, TeardownAction.destroySurface]
    (s9 ++ [TeardownAction.destroyInstance]) (by decide)
    (fun a ha => le_trans (by omega) (b1 a ha))
  have p3 := app 10 ((List.range nv).map TeardownAction.destroyImageView) _
    (hseg TeardownAction.destroyImageView 9 nv (fun k => rfl)) p2
    (fun a ha => by rw [memrank TeardownAction.destroyImageView 9 nv (fun k => rfl) a ha]; omega) b2
  have b3 := bapp 9 ((List.range nv).map TeardownAction.destroyImageView)
    ([TeardownAction.destroySwapchain, TeardownAction.destroyDevice, TeardownAction.destroySurface]
      ++ (s9 ++ [TeardownAction.destroyInstance]))
    (fun a ha => le_of_eq (memrank TeardownAction.destroyImageView 9 nv (fun k => rfl) a ha).symm)
    (fun a ha => le_trans (by omega) (b2 a ha))
  have p4 := app 9
    [TeardownAction.destroyPipeline, TeardownAction.destroyPipelineLayout, TeardownAction.destroyRenderPass]
    _ (by decide) p3 (by decide) b3
  have b4 := bapp 6
    [TeardownAction.destroyPipeline, TeardownAction.destroyPipelineLayout, TeardownAction.destroyRenderPass]
    ((List.range nv).map TeardownAction.destroyImageView
      ++ ([TeardownAction.destroySwapchain, TeardownAction.destroyDevice, TeardownAction.destroySurface]
      ++ (s9 ++ [TeardownAction.destroyInstance]))) (by decide)
    (fun a ha => le_trans (by omega) (b3 a ha))
  have p5 := app 6 ((List.range nf).map TeardownAction.destroyFramebuffer) _
    (hseg TeardownAction.destroyFramebuffer 5 nf (fun k => rfl)) p4
    (fun a ha => by rw [memrank TeardownAction.destroyFramebuffer 5 nf (fun k => rfl) a ha]; omega) b4
  have b5 := bapp 5 ((List.range nf).map TeardownAction.destroyFramebuffer)
    ([TeardownAction.destroyPipeline, TeardownAction.destroyPipelineLayout, TeardownAction.destroyRenderPass]
      ++ ((List.range nv).map TeardownAction.destroyImageView
      ++ ([TeardownAction.destroySwapchain, TeardownAction.destroyDevice, TeardownAction.destroySurface]
      ++ (s9 ++ [TeardownAction.destroyInstance]))))
    (fun a ha => le_of_eq (memrank TeardownAction.destroyFramebuffer 5 nf (fun k => rfl) a ha).symm)
    (fun a ha => le_trans (by omega) (b4 a ha))
  have p6 := app 5 [TeardownAction.destroyCommandPool] _ (by decide) p5 (by decide) b5
  have b6 := bapp 4 [TeardownAction.destroyCommandPool]
    ((List.range nf).map TeardownAction.destroyFramebuffer
      ++ ([TeardownAction.destroyPipeline, TeardownAction.destroyPipelineLayout, TeardownAction.destroyRenderPass]
      ++ ((List.range nv).map TeardownAction.destroyImageView
      ++ ([TeardownAction.destroySwapchain, TeardownAction.destroyDevice, TeardownAction.destroySurface]
      ++ (s9 ++ [TeardownAction.destroyInstance]))))) (by decide)
    (fun a ha => le_trans (by omega) (b5 a ha))
  have p7 := app 4 ((List.range ns).map TeardownAction.destroyImageAvailableSemaphore) _
    (hseg TeardownAction.destroyImageAvailableSemaphore 3 ns (fun k => rfl)) p6
    (fun a ha => by rw [memrank TeardownAction.destroyImageAvailableSemaphore 3 ns (fun k => rfl) a ha]; omega) b6
  have b7 := bapp 3 ((List.range ns).map TeardownAction.destroyImageAvailableSemaphore)
    ([TeardownAction.destroyCommandPool]
      ++ ((List.range nf).map TeardownAction.destroyFramebuffer
      ++ ([TeardownAction.destroyPipeline, TeardownAction.destroyPipelineLayout, TeardownAction.destroyRenderPass]
      ++ ((List.range nv).map TeardownAction.destroyImageView
      ++ ([TeardownAction.destroySwapchain, TeardownAction.destroyDevice, TeardownAction.destroySurface]
      ++ (s9 ++ [TeardownAction.destroyInstance]))))))
    (fun a ha => le_of_eq (memrank TeardownAction.destroyImageAvailableSemaphore 3 ns (fun k => rfl) a ha).symm)
    (fun a ha => le_trans (by omega) (b6 a ha))
  have p8 := app 3 ((List.range ns).map TeardownAction.destroyRenderFinishedSemaphore) _
    (hseg TeardownAction.destroyRenderFinishedSemaphore 2 ns (fun k => rfl)) p7
    (fun a ha => by rw [memrank TeardownAction.destroyRenderFinishedSemaphore 2 ns (fun k => rfl) a ha]; omega) b7
  have b8 := bapp 2 ((List.range ns).map TeardownAction.destroyRenderFinishedSemaphore)
    ((List.range ns).map TeardownAction.destroyImageAvailableSemaphore
      ++ ([TeardownAction.destroyCommandPool]
      ++ ((List.range nf).map TeardownAction.destroyFramebuffer
      ++ ([TeardownAction.destroyPipeline, TeardownAction.destroyPipelineLayout, TeardownAction.destroyRenderPass]
      ++ ((List.range nv).map TeardownAction.destroyImageView
      ++ ([TeardownAction.destroySwapchain, TeardownAction.destroyDevice, TeardownAction.destroySurface]
      ++ (s9 ++ [TeardownAction.destroyInstance])))))))
    (fun a ha => le_of_eq (memrank TeardownAction.destroyRenderFinishedSemaphore 2 ns (fun k => rfl) a ha).symm)
    (fun a ha => le_trans (by omega) (b7 a ha))
  have p9 := app 2 ((List.range ns).map TeardownAction.destroyFence) _
    (hseg TeardownAction.destroyFence 1 ns (fun k => rfl)) p8
    (fun a ha => by rw [memrank TeardownAction.destroyFence 1 ns (fun k => rfl) a ha]; omega) b8
  have b9 := bapp 1 ((List.range ns).map TeardownAction.destroyFence)
    ((List.range ns).map TeardownAction.destroyRenderFinishedSemaphore
      ++ ((List.range ns).map TeardownAction.destroyImageAvailableSemaphore
      ++ ([TeardownAction.destroyCommandPool]
      ++ ((List.range nf).map TeardownAction.destroyFramebuffer
      ++ ([TeardownAction.destroyPipeline, TeardownAction.destroyPipelineLayout, TeardownAction.destroyRenderPass]
      ++ ((List.range nv).map TeardownAction.destroyImageView
      ++ ([TeardownAction.destroySwapchain, TeardownAction.destroyDevice, TeardownAction.destroySurface]
      ++ (s9 ++ [TeardownAction.destroyInstance]))))))))
    (fun a ha => le_of_eq (memrank TeardownAction.destroyFence 1 ns (fun k => rfl) a ha).symm)
    (fun a ha => le_trans (by omega) (b8 a ha))
  exact app 1 [TeardownAction.deviceWaitIdle] _ (by decide) p9 (by decide) b9

/-- C4: `App::destroy` (src/base/mod.rs lines 198-219) first waits for the
logical device to become idle, and only then destroys objects, in exactly
the claimed order: in-flight fences, render-finished semaphores,
image-available semaphores, command pool, framebuffers, pipeline, pipeline
layout, render pass, image views, swapchain, logical device, surface,
debug callback (present exactly when validation is enabled), instance
(last).  The order is expressed as: the wait-idle step is the head and
occurs exactly once, every pair of steps appears in non-decreasing
`teardownRank` order, and the instance destruction is the final step. -/
theorem destroy_order_spec (ns nf nv : Nat) (en : Bool) :
    (destroy ns nf nv en).head? = some TeardownAction.deviceWaitIdle
    ∧ (destroy ns nf nv en).count TeardownAction.deviceWaitIdle = 1
    ∧ (destroy ns nf nv en).Pairwise
        (fun a b => teardownRank a ≤ teardownRank b)
    ∧ ((TeardownAction.destroyDebugMessenger ∈ destroy ns nf nv en) ↔ en = true)
    ∧ (destroy ns nf nv en).getLast? = some TeardownAction.destroyInstance := by
  refine ⟨rfl, ?_, ?_, ?_, ?_⟩
  · cases en <;>
      simp [destroy, List.count_append, List.count_cons, List.count_nil,
        List.count_eq_zero]
  · have hp : (if en then [TeardownAction.destroyDebugMessenger]
        else ([] : List TeardownAction)).Pairwise
          (fun a b => teardownRank a ≤ teardownRank b) := by
      cases en <;> simp
    have hb : ∀ a ∈ (if en then [TeardownAction.destroyDebugMessenger]
        else ([] : List TeardownAction)), teardownRank a = 13 := by
      cases en <;> simp [teardownRank]
    have hcore := destroy_pairwise_core ns nf nv _ hp hb
    simp only [destroy, List.append_assoc]
    exact hcore
  · cases en <;> simp [destroy]
  · unfold destroy
    rw [List.getLast?_append_of_ne_nil _ (by simp)]
    rfl

end VulkanTesting

